import Mathlib

/-!
Verification of the Moltbook Observatory idea pipeline.

This file embeds, in Lean, the scoring engine, categorizer, direction
planner, lifecycle/persistence logic and template selection of the source
(`analyzer/idea_analyzer.py`, `builder/website_builder.py`,
`database/connection.py`, `api/server.py`, `main.py`) and proves the
specified properties about them.

Modelling conventions:
* Python strings are modelled as `String` (inputs) and `List Char`
  (working text); Python's substring test `kw in text` is `strIn`.
* Python numbers are modelled as exact rationals (`ℚ`); float rounding
  artifacts are outside the model.  `round(x, 1)` is modelled by
  `pyRound1`, round-half-to-even as documented for Python's `round`.
* Upvote and comment counts are natural numbers, following the data
  model (they are counts).
* Wall-clock time (`datetime.now`) is an explicit parameter `now`.
* Dictionaries with optional, dynamically typed fields are modelled by
  `RawPost` over `PyVal`; the statically well-typed shape is `Post`.
-/

set_option maxRecDepth 40000

/-- Python `str.lower()` on a character sequence (ASCII case folding;
CJK characters are unaffected, as in Python). -/
def lowerL (l : List Char) : List Char := l.map Char.toLower

/-- Python's substring test `kw in text`. -/
def strIn (kw : String) (text : List Char) : Bool :=
  decide (kw.toList <:+: text)

/-- Python `sep.join(parts)`. -/
def pyJoinL (sep : List Char) : List (List Char) → List Char
  | [] => []
  | [x] => x
  | x :: y :: xs => x ++ sep ++ pyJoinL sep (y :: xs)

/-- Python `sep.join(parts)` on `String`s (used for the `','.join` in
`Database.insert_idea`). -/
def pyJoinS (sep : String) : List String → String
  | [] => ""
  | [x] => x
  | x :: y :: xs => x ++ sep ++ pyJoinS sep (y :: xs)

/-- Number of entries of the keyword list (counted with multiplicity, as
the Python `for` loops do) that occur as substrings of `text`. -/
def countMatches (kws : List String) (text : List Char) : Nat :=
  (kws.filter (fun kw => strIn kw text)).length

/-- `any(kw in text for kw in kws)`. -/
def anyIn (kws : List String) (text : List Char) : Bool :=
  kws.any (fun kw => strIn kw text)

/-- Round-half-to-even to an integer, Python's `round` on exact values. -/
def pyRoundHalfEven (t : ℚ) : ℤ :=
  let n := ⌊t⌋
  let frac := t - (n : ℚ)
  if frac < 1/2 then n
  else if (1/2 : ℚ) < frac then n + 1
  else if n % 2 = 0 then n else n + 1

/-- Python `round(x, 1)`. -/
def pyRound1 (q : ℚ) : ℚ := (pyRoundHalfEven (10 * q) : ℚ) / 10

/-- The statically well-typed shape of an input post
(`id`, `title`, `content`, `tags`, `upvotes`, `comment_count`,
`author`); `id` and `author` may be absent (`post.get` defaults). -/
structure Post where
  id : Option String
  title : String
  content : String
  tags : List String
  upvotes : Nat
  comment_count : Nat
  author : Option String
deriving Repr, DecidableEq

/-- `IdeaAnalyzer.TECH_KEYWORDS`. -/
def TECH_KEYWORDS : List String :=
  ["ai", "agent", "llm", "gpt", "机器学习", "深度学习",
   "automation", "workflow", "自动化", "工作流",
   "api", "integration", "集成", "插件",
   "blockchain", "web3", "crypto",
   "cloud", "serverless", "云原生",
   "iot", "edge", "边缘计算"]

/-- `IdeaAnalyzer.BUSINESS_KEYWORDS`. -/
def BUSINESS_KEYWORDS : List String :=
  ["saas", "platform", "平台", "marketplace", "市场",
   "subscription", "订阅", "付费", "商业化",
   "enterprise", "企业级", "b2b",
   "startup", "创业", "launch", "发布"]

/-- `IdeaAnalyzer.UTILITY_KEYWORDS`. -/
def UTILITY_KEYWORDS : List String :=
  ["tool", "工具", "library", "库", "framework", "框架",
   "template", "模板", "generator", "生成器",
   "dashboard", "仪表板", "analytics", "分析",
   "monitoring", "监控", "cli", "命令行"]

/-- One entry of `IdeaAnalyzer.CATEGORIES`. -/
structure Category where
  name : String
  keywords : List String
  weight : ℚ
  description : String
deriving Repr, DecidableEq

/-- `IdeaAnalyzer.CATEGORIES`, in declaration (= Python dict insertion)
order.  Note the `platform` keyword list really contains `"platform"`
twice, exactly as in the source. -/
def CATEGORIES : List Category :=
  [⟨"ai_application", ["ai", "agent", "llm", "gpt", "chatbot", "assistant"], 1.3, "AI应用"⟩,
   ⟨"automation", ["automation", "workflow", "自动化", "工作流", "pipeline"], 1.2, "自动化工具"⟩,
   ⟨"developer_tools", ["tool", "cli", "library", "framework", "sdk", "api"], 1.1, "开发者工具"⟩,
   ⟨"platform", ["platform", "marketplace", "saas", "platform"], 1.25, "平台产品"⟩,
   ⟨"content", ["content", "blog", "generator", "writing", "文章"], 1.0, "内容相关"⟩]

/-- `IdeaAnalyzer._calc_tech_score`: +5 per tech keyword occurring in the
text, +8 per tag whose lowercase form is in the tech keyword list,
capped at 40. -/
def calc_tech_score (text : List Char) (tags : List (List Char)) : ℚ :=
  min 40 ((5 * countMatches TECH_KEYWORDS (lowerL text) +
    8 * (tags.filter (fun t => decide (String.mk (lowerL t) ∈ TECH_KEYWORDS))).length : ℕ) : ℚ)

/-- `IdeaAnalyzer._calc_business_score`: +8 per business keyword in the
text, capped at 30. -/
def calc_business_score (text : List Char) : ℚ :=
  min 30 ((8 * countMatches BUSINESS_KEYWORDS (lowerL text) : ℕ) : ℚ)

/-- `IdeaAnalyzer._calc_utility_score`: +6 per utility keyword in the
text, +5 per tag in the utility keyword list, capped at 25. -/
def calc_utility_score (text : List Char) (tags : List (List Char)) : ℚ :=
  min 25 ((6 * countMatches UTILITY_KEYWORDS (lowerL text) +
    5 * (tags.filter (fun t => decide (String.mk (lowerL t) ∈ UTILITY_KEYWORDS))).length : ℕ) : ℚ)

/-- `IdeaAnalyzer._calc_engagement_score`:
`min(15, upvotes*0.1) + min(5, comments*0.1)`. -/
def calc_engagement_score (upvotes comments : Nat) : ℚ :=
  min 15 ((upvotes : ℚ) * 0.1) + min 5 ((comments : ℚ) * 0.1)

/-- `IdeaAnalyzer._calc_category_score`: for each category with at least
one keyword match, `matches * 5 * weight` capped at 20; result is the
maximum over the categories (0 when none matches). -/
def categoryStep (text_lower : List Char) (max_score : ℚ) (c : Category) : ℚ :=
  if 0 < countMatches c.keywords text_lower then
    max max_score (min 20 ((countMatches c.keywords text_lower : ℚ) * 5 * c.weight))
  else max_score

/-- `IdeaAnalyzer._calc_category_score` body: fold the step over the
category table starting from 0. -/
def calc_category_score (text : List Char) : ℚ :=
  CATEGORIES.foldl (categoryStep (lowerL text)) 0

/-- The loop of `IdeaAnalyzer._detect_category`: return the description
of the first category whose (multiplicity-counted) match count reaches 2. -/
def detectCategoryLoop (cs : List Category) (text_lower : List Char) : String :=
  match cs with
  | [] => "通用"
  | c :: rest =>
    if 2 ≤ countMatches c.keywords text_lower then c.description
    else detectCategoryLoop rest text_lower

/-- `IdeaAnalyzer._detect_category`. -/
def detect_category (text : List Char) : String :=
  detectCategoryLoop CATEGORIES (lowerL text)

/-- A project direction entry. -/
structure Direction where
  type : String
  description : String
  priority : String
deriving Repr, DecidableEq

/-- `IdeaAnalyzer._extract_project_directions`: keyword triggers on the
lowercased content append at most one direction each, in declaration
order; one default direction when none fires. -/
def extract_project_directions (p : Post) : List Direction :=
  let content := lowerL p.content.toList
  let ds : List Direction := []
  let ds := if anyIn ["dashboard", "monitor", "analytics", "监控"] content
    then ds ++ [⟨"数据分析仪表板", "实时监控和可视化平台", "high"⟩] else ds
  let ds := if anyIn ["generator", "create", "build", "生成"] content
    then ds ++ [⟨"自动化生成器", "一键生成内容或项目结构", "high"⟩] else ds
  let ds := if anyIn ["agent", "ai", "智能"] content
    then ds ++ [⟨"AI Agent 应用", "基于AI的智能助手或Agent", "high"⟩] else ds
  let ds := if anyIn ["platform", "marketplace", "平台"] content
    then ds ++ [⟨"SaaS 平台", "可扩展的在线服务平台", "medium"⟩] else ds
  let ds := if anyIn ["tool", "工具"] content
    then ds ++ [⟨"在线工具网站", "提供在线功能的小工具", "medium"⟩] else ds
  let ds := if anyIn ["blog", "内容", "article"] content
    then ds ++ [⟨"博客/内容网站", "内容展示和分享平台", "medium"⟩] else ds
  if ds.isEmpty then [⟨"创意项目原型", "基于想法构建的演示项目", "low"⟩] else ds

/-- Tech-stack suggestion record. -/
structure TechStack where
  frontend : List String
  backend : List String
  database : List String
  deployment : List String
deriving Repr, DecidableEq

/-- `IdeaAnalyzer._suggest_tech_stack`. -/
def suggest_tech_stack (p : Post) : TechStack :=
  let combined := lowerL p.title.toList ++ ' ' :: lowerL p.content.toList
  { frontend :=
      if anyIn ["dashboard", "ui", "frontend", "web"] combined
      then ["React", "Vue.js", "Next.js"] else ["React", "Vue.js"]
    backend :=
      if anyIn ["api", "ai", "ml", "智能"] combined
      then ["FastAPI", "Python", "Node.js"]
      else if anyIn ["real-time", "实时", "socket"] combined
      then ["Node.js", "FastAPI"] else ["FastAPI", "Express"]
    database :=
      if anyIn ["analytics", "data", "分析"] combined
      then ["PostgreSQL", "TimescaleDB", "InfluxDB"] else ["PostgreSQL", "SQLite"]
    deployment := ["Vercel", "Railway", "Docker"] }

/-- `IdeaAnalyzer._suggest_monetization`. -/
def suggest_monetization (p : Post) : List String :=
  let content := lowerL (p.title.toList ++ ' ' :: p.content.toList)
  if anyIn ["saas", "platform", "enterprise", "企业"] content then
    ["订阅制", "企业版", "私有化部署"]
  else if anyIn ["tool", "工具", "免费"] content then
    ["免费增值", "广告收入", "赞助"]
  else if anyIn ["api", "service", "服务"] content then
    ["API调用计费", "按量付费"]
  else ["广告", "赞助", "联盟营销"]

/-- `IdeaAnalyzer._get_reasons`. -/
def get_reasons (text : List Char) (tags : List (List Char)) (upvotes : Nat) : List String :=
  let r0 : List String :=
    if 100 ≤ upvotes then ["高人气(" ++ toString upvotes ++ "赞)"]
    else if 50 ≤ upvotes then ["中等人气(" ++ toString upvotes ++ "赞)"]
    else []
  let r1 := if anyIn ["ai", "agent", "llm"] text then r0 ++ ["AI/Agent相关"] else r0
  let r2 := if anyIn ["automation", "workflow"] text then r1 ++ ["自动化相关"] else r1
  let r3 := if anyIn ["platform", "saas"] text then r2 ++ ["平台潜力"] else r2
  let r4 := if anyIn ["tool", "generator"] text then r3 ++ ["实用工具"] else r3
  if ["trending", "popular"].any (fun kw => tags.contains kw.toList)
  then r4 ++ ["热门标签"] else r4

/-- Stand-in for `hashlib.md5(str(post)).encode()).hexdigest()[:12]`, the
fallback id used when the post has no `id` key.  MD5 lives in the Python
standard library, outside this repository; only the fact that the
fallback is a deterministic function of the post matters to any claim
here, so the digest itself is not modelled. -/
def md5_fingerprint (p : Post) : String :=
  "md5:" ++ p.title ++ "|" ++ p.content ++ "|" ++ pyJoinS "," p.tags

/-- The sub-score block (`analysis` key of the result). -/
structure ScoreBreakdown where
  tech_score : ℚ
  business_score : ℚ
  utility_score : ℚ
  engagement_score : ℚ
  category_score : ℚ
deriving Repr, DecidableEq

/-- The dictionary returned by `IdeaAnalyzer.analyze`. -/
structure AnalysisResult where
  id : String
  title : String
  content : String
  tags : List String
  author : Option String
  upvotes : Nat
  source : String
  category : String
  creativity_score : ℚ
  analysis : ScoreBreakdown
  reasons : List String
  project_directions : List Direction
  tech_stack : TechStack
  monetization : List String
  collectible : Bool
  high_quality : Bool
  analyzed_at : String
deriving Repr, DecidableEq

/-- The case-normalized concatenation
`f"{title} {content} {' '.join(tags)}"` built by `analyze`. -/
def combinedText (p : Post) : List Char :=
  lowerL p.title.toList ++ [' '] ++ lowerL p.content.toList ++ [' '] ++
    pyJoinL [' '] (p.tags.map (fun t => lowerL t.toList))

/-- The lowercased tag list built by `analyze`. -/
def loweredTags (p : Post) : List (List Char) :=
  p.tags.map (fun t => lowerL t.toList)

/-- The raw weighted total computed by `analyze` before rounding and
clamping:
`0.35*tech + 0.25*business + 0.20*utility + 0.10*engagement + 0.10*category`. -/
def total_score (p : Post) : ℚ :=
  calc_tech_score (combinedText p) (loweredTags p) * 0.35 +
  calc_business_score (combinedText p) * 0.25 +
  calc_utility_score (combinedText p) (loweredTags p) * 0.20 +
  calc_engagement_score p.upvotes p.comment_count * 0.10 +
  calc_category_score (combinedText p) * 0.10

/-- `IdeaAnalyzer.analyze` on a well-typed post; `now` is the
`datetime.now(timezone.utc).isoformat()` timestamp. -/
def analyze (p : Post) (now : String) : AnalysisResult :=
  { id := p.id.getD (md5_fingerprint p)
    title := p.title
    content := p.content
    tags := p.tags.map (fun t => String.mk (lowerL t.toList))
    author := p.author
    upvotes := p.upvotes
    source := "moltbook"
    category := detect_category (combinedText p)
    creativity_score := min 100 (pyRound1 (total_score p))
    analysis :=
      { tech_score := calc_tech_score (combinedText p) (loweredTags p)
        business_score := calc_business_score (combinedText p)
        utility_score := calc_utility_score (combinedText p) (loweredTags p)
        engagement_score := calc_engagement_score p.upvotes p.comment_count
        category_score := calc_category_score (combinedText p) }
    reasons := get_reasons (combinedText p) (loweredTags p) p.upvotes
    project_directions := extract_project_directions p
    tech_stack := suggest_tech_stack p
    monetization := suggest_monetization p
    collectible := decide (25 ≤ total_score p)
    high_quality := decide (50 ≤ total_score p)
    analyzed_at := now }

/-- One entry of `WebsiteBuilder.TEMPLATE_TYPES`. -/
structure Template where
  name : String
  description : String
  features : List String
  tech_stack : List String
deriving Repr, DecidableEq

/-- `WebsiteBuilder.TEMPLATE_TYPES` (file contents of the archetypes are
static boilerplate; only the metadata fields feed the claims). -/
def TEMPLATE_TYPES : List (String × Template) :=
  [("ai_assistant", ⟨"AI助手", "基于AI的智能助手网站",
      ["AI对话", "上下文理解", "个性化响应"],
      ["React", "FastAPI", "OpenAI API", "PostgreSQL"]⟩),
   ("dashboard", ⟨"数据分析仪表板", "实时监控和可视化平台",
      ["实时图表", "数据可视化", "告警通知"],
      ["Next.js", "Recharts", "Python", "InfluxDB"]⟩),
   ("generator", ⟨"自动化生成器", "一键生成内容或项目",
      ["实时预览", "批量生成", "模板系统"],
      ["Next.js", "Vercel AI SDK", "Supabase"]⟩),
   ("blog", ⟨"博客/内容网站", "内容展示和分享平台",
      ["博客文章", "分类系统", "SEO优化"],
      ["Next.js", "Tailwind CSS", "MDX"]⟩),
   ("saas_platform", ⟨"SaaS平台", "可扩展的在线服务平台",
      ["用户系统", "订阅管理", "API接口"],
      ["Next.js", "Prisma", "PostgreSQL", "Stripe"]⟩),
   ("tool_website", ⟨"在线工具网站", "提供在线功能的工具集合",
      ["多工具集成", "批量处理", "数据导出"],
      ["Vue.js", "Node.js", "Redis"]⟩)]

/-- `WebsiteBuilder._determine_type`: substring checks on the lowercased
direction type, in source order; every fall-through (including a missing
direction) lands on `"tool_website"`. -/
def determine_type (direction : Option Direction) : String :=
  match direction with
  | Option.none => "tool_website"
  | some d =>
    let dtype := lowerL d.type.toList
    if strIn "助手" dtype || strIn "assistant" dtype then "ai_assistant"
    else if strIn "仪表板" dtype || strIn "dashboard" dtype then "dashboard"
    else if strIn "生成器" dtype || strIn "generator" dtype then "generator"
    else if strIn "博客" dtype || strIn "blog" dtype then "blog"
    else if strIn "平台" dtype || strIn "platform" dtype then "saas_platform"
    else if strIn "工具" dtype || strIn "tool" dtype then "tool_website"
    else "tool_website"

/-- Python `str.capitalize()`. -/
def pyCapitalize (s : String) : String :=
  match s.toList with
  | [] => ""
  | c :: cs => String.mk (c.toUpper :: lowerL cs)

/-- `WebsiteBuilder._generate_project_name`: first three
whitespace-delimited title tokens longer than two characters,
capitalized and concatenated. -/
def generate_project_name (title : String) : String :=
  let words := (title.split Char.isWhitespace).filter (fun w => w ≠ "")
  let keywords := (words.filter (fun w => 2 < w.length)).take 3
  String.join (keywords.map pyCapitalize)

/-- The file paths emitted by `WebsiteBuilder._generate_files` for each
archetype: four common files plus the archetype-specific stubs.  The
static string contents of the files are not modelled (they are constant
template bodies with no control flow). -/
def generate_file_names (project_type : String) : List String :=
  ["package.json", "README.md", ".env.example", ".gitignore"] ++
  (if project_type = "ai_assistant" then ["app/page.tsx", "app/api/chat/route.ts"]
   else if project_type = "dashboard" then ["app/page.tsx", "components/Dashboard.tsx"]
   else if project_type = "generator" then ["app/page.tsx"]
   else if project_type = "blog" then ["app/page.tsx", "content/hello-world.md"]
   else if project_type = "saas_platform" then ["app/page.tsx"]
   else ["index.html"])

/-- The idea dictionary consumed by `WebsiteBuilder.build` (an analysis
result or a database row): the fields `build` and the build cycle read. -/
structure BuildIdea where
  id : String
  title : String
  content : String
  creativity_score : ℚ
  monetization : List String
  project_directions : List Direction
  status : String
deriving Repr, DecidableEq

/-- The dictionary returned by `WebsiteBuilder.build`. -/
structure BuildResult where
  success : Bool
  project_id : String
  project_name : String
  project_path : String
  project_type : String
  files_created : Nat
  tech_stack : List String
  files : List String
deriving Repr, DecidableEq

/-- `WebsiteBuilder.build`.  `project_id` stands for
`md5(idea_id + now).hexdigest()[:12]` (MD5 over the current time, a
fresh external value, passed in explicitly). -/
def build (idea : BuildIdea) (direction : Option Direction) (project_id : String) :
    BuildResult :=
  let project_type := determine_type direction
  let template :=
    ((TEMPLATE_TYPES.find? (fun e => e.1 == project_type)).map (fun e => e.2)).getD
      ⟨"在线工具网站", "提供在线功能的工具集合",
       ["多工具集成", "批量处理", "数据导出"], ["Vue.js", "Node.js", "Redis"]⟩
  let project_name := generate_project_name idea.title
  let files := generate_file_names project_type
  { success := true
    project_id := project_id
    project_name := project_name
    project_path := "output/projects/" ++ project_id
    project_type := project_type
    files_created := files.length
    tech_stack := template.tech_stack
    files := files }

/-- The `/api/build` endpoint of `api/server.py`: look the idea up among
the stored ideas; a missing idea id is answered with the error
`"创意不存在"` and nothing is built; otherwise the direction at
`direction_index` is used when in range and `None` otherwise. -/
def api_build (ideas : List BuildIdea) (idea_id : String) (direction_index : Nat)
    (project_id : String) : Except String BuildResult :=
  match ideas.find? (fun i => i.id == idea_id) with
  | Option.none => Except.error "创意不存在"
  | some idea =>
    let direction := idea.project_directions[direction_index]?
    Except.ok (build idea direction project_id)

/-- The direction choice of `ObservatoryDashboard.run_auto_build_cycle`:
`directions[0] if directions else None`. -/
def chooseDirection (directions : List Direction) : Option Direction :=
  directions.head?

/-- A row of the `ideas` table, as written by `Database.insert_idea`
(`id` is the primary key). -/
structure IdeaRow where
  id : String
  source : String
  source_id : Option String
  title : String
  content : String
  tags : String
  category : String
  upvotes : Nat
  author : Option String
  creativity_score : ℚ
  project_potential : String
  status : String
  collected_at : Option String
deriving Repr, DecidableEq

/-- The row `Database.insert_idea` builds from an analysis dictionary
(keys missing from the analysis take the documented defaults). -/
def rowOfAnalysis (a : AnalysisResult) : IdeaRow :=
  { id := a.id
    source := a.source
    source_id := Option.none
    title := a.title
    content := a.content
    tags := pyJoinS "," a.tags
    category := a.category
    upvotes := a.upvotes
    author := a.author
    creativity_score := a.creativity_score
    project_potential := ""
    status := "new"
    collected_at := Option.none }

/-- `Database.insert_idea`: `INSERT OR IGNORE` keyed on the `id` primary
key — a duplicate id leaves the table unchanged and reports no error. -/
def insert_idea (store : List IdeaRow) (row : IdeaRow) : List IdeaRow :=
  if store.any (fun r => r.id == row.id) then store else store ++ [row]

/-- The analysis/filter/sort stage shared by
`IdeaAnalyzer.batch_analyze`: analyze every post, keep the collectible
ones, sort by descending creativity score (Python's stable sort). -/
def batch_analyze (posts : List Post) (now : String) : List AnalysisResult :=
  ((posts.map (fun p => analyze p now)).filter (fun a => a.collectible)).mergeSort
    (fun a b => b.creativity_score ≤ a.creativity_score)

/-- The analyses retained by
`ObservatoryDashboard.run_monitoring_cycle`: only collectible ones,
sorted by descending creativity score. -/
def monitoring_retained (posts : List Post) (now : String) : List AnalysisResult :=
  ((posts.map (fun p => analyze p now)).filter (fun a => a.collectible)).mergeSort
    (fun a b => b.creativity_score ≤ a.creativity_score)

/-- The database state after `run_monitoring_cycle` persists the
retained analyses via `insert_idea`. -/
def run_monitoring_persist (store : List IdeaRow) (posts : List Post) (now : String) :
    List IdeaRow :=
  (monitoring_retained posts now).foldl (fun s a => insert_idea s (rowOfAnalysis a)) store

/-- A dynamically typed Python value, as far as the analyzer's input
handling distinguishes them. -/
inductive PyVal where
  | str : String → PyVal
  | int : Int → PyVal
  | pynone : PyVal
  | list : List PyVal → PyVal

/-- A post dictionary with optional, dynamically typed fields (the
`id`/`author` keys never influence the raising behavior and are carried
in their well-typed shape). -/
structure RawPost where
  id : Option String
  title : Option PyVal
  content : Option PyVal
  tags : Option PyVal
  upvotes : Option PyVal
  comment_count : Option PyVal
  author : Option String

/-- `post.get(key, '').lower()`: an absent field defaults to the empty
string; a present non-string raises `AttributeError` (strings have
`.lower`, other values do not). -/
def getStrField : Option PyVal → Except String String
  | Option.none => Except.ok ""
  | some (PyVal.str s) => Except.ok s
  | some _ => Except.error "AttributeError"

/-- The element-wise body of the tag list comprehension: each element
must be a string (otherwise `.lower()` raises `AttributeError`),
failing at the first bad element. -/
def mapTagElems : List PyVal → Except String (List String)
  | [] => Except.ok []
  | PyVal.str s :: xs => (mapTagElems xs).map (fun rest => s :: rest)
  | _ :: _ => Except.error "AttributeError"

/-- `[t.lower() for t in post.get('tags', [])]`: absent defaults to `[]`;
a list must consist of strings (`AttributeError` otherwise); iterating a
string yields its one-character strings; other values are not iterable
(`TypeError`). -/
def getTagsField : Option PyVal → Except String (List String)
  | Option.none => Except.ok []
  | some (PyVal.list xs) => mapTagElems xs
  | some (PyVal.str s) => Except.ok (s.toList.map (fun c => String.mk [c]))
  | some _ => Except.error "TypeError"

/-- `post.get(key, 0)` used in arithmetic and comparisons: absent
defaults to 0; a non-numeric present value raises `TypeError`.  A
negative count is clamped to 0 by the model (the typed pipeline works
over counts; no claim exercises negative values). -/
def getCountField : Option PyVal → Except String Nat
  | Option.none => Except.ok 0
  | some (PyVal.int n) => Except.ok n.toNat
  | some _ => Except.error "TypeError"

/-- Field extraction of `analyze` over a dynamically typed post: either
every present field has the expected shape (absent keys default), or the
first ill-typed field in source order (title, content, tags, upvotes,
comment_count) raises. -/
def extractPost (raw : RawPost) : Except String Post :=
  match getStrField raw.title, getStrField raw.content, getTagsField raw.tags,
      getCountField raw.upvotes, getCountField raw.comment_count with
  | Except.ok t, Except.ok c, Except.ok tg, Except.ok u, Except.ok cc =>
      Except.ok ⟨raw.id, t, c, tg, u, cc, raw.author⟩
  | Except.error e, _, _, _, _ => Except.error e
  | _, Except.error e, _, _, _ => Except.error e
  | _, _, Except.error e, _, _ => Except.error e
  | _, _, _, Except.error e, _ => Except.error e
  | _, _, _, _, Except.error e => Except.error e

/-- `IdeaAnalyzer.analyze` over a dynamically typed post dictionary:
field extraction either defaults (absent keys) or raises (present
ill-typed keys), then the well-typed analysis runs. -/
def analyzeDyn (raw : RawPost) (now : String) : Except String AnalysisResult :=
  (extractPost raw).map (fun p => analyze p now)

/-- Well-typedness of a raw post: every present field has the shape the
analyzer's happy path expects. -/
def WellTypedRaw (raw : RawPost) : Prop :=
  (raw.title = Option.none ∨ ∃ s, raw.title = some (PyVal.str s)) ∧
  (raw.content = Option.none ∨ ∃ s, raw.content = some (PyVal.str s)) ∧
  (raw.tags = Option.none ∨ (∃ s, raw.tags = some (PyVal.str s)) ∨
    ∃ xs : List String, raw.tags = some (PyVal.list (xs.map PyVal.str))) ∧
  (raw.upvotes = Option.none ∨ ∃ n : Int, raw.upvotes = some (PyVal.int n)) ∧
  (raw.comment_count = Option.none ∨ ∃ n : Int, raw.comment_count = some (PyVal.int n))

/-- The categorizer as §4.2 of the specification words it, for
comparison with the implementation: first category, in declared order,
with at least two distinct keywords occurring in the normalized text;
the generic label otherwise. -/
def detect_category_spec (text : List Char) : String :=
  ((CATEGORIES.find? (fun c =>
      2 ≤ (c.keywords.dedup.filter (fun kw => strIn kw (lowerL text))).length)).map
    (fun c => c.description)).getD "通用"

/-- The amended reading of `_detect_category`: like the specification's,
except that keyword matches are counted with the multiplicity of the
declared keyword lists (the `platform` list contains `"platform"`
twice). -/
def detect_category_amended (text : List Char) : String :=
  ((CATEGORIES.find? (fun c => 2 ≤ countMatches c.keywords (lowerL text))).map
    (fun c => c.description)).getD "通用"

/-- The post with every field empty or zero. -/
def emptyPost : Post := ⟨Option.none, "", "", [], 0, 0, Option.none⟩

/-- A post carrying a single keyword only as a tag. -/
def tagPost (k : String) : Post := ⟨Option.none, "", "", [k], 0, 0, Option.none⟩

/-- A post carrying a single keyword only in its free text (title). -/
def titlePost (k : String) : Post := ⟨Option.none, k, "", [], 0, 0, Option.none⟩

/-- Append one tag to a post. -/
def addTag (p : Post) (k : String) : Post :=
  { p with tags := p.tags ++ [k] }

/-- A post whose only text is the single keyword `platform`. -/
def platformPost : Post := ⟨Option.none, "platform", "", [], 0, 0, Option.none⟩

/-- A concrete post whose raw weighted total is exactly 25
(tech 40, business 30, utility 0, engagement 20, category 15). -/
def post25 : Post :=
  ⟨some "p25",
   "web3 crypto cloud serverless iot 边缘计算 机器学习 深度学习 subscription 付费 商业化 enterprise b2b writing blog 文章",
   "", [], 250, 50, Option.none⟩

/-- A concrete post whose raw weighted total is exactly 24.9
(tech 40, business 30, utility 12, engagement 10, category 0). -/
def post249 : Post :=
  ⟨some "p249",
   "web3 crypto cloud serverless iot 边缘计算 机器学习 深度学习 subscription 付费 商业化 enterprise b2b 模板 仪表板",
   "", [], 100, 0, Option.none⟩

/-- A concrete post whose raw weighted total is exactly 24.96, which the
one-decimal rounding reports as 25.0. -/
def post2496 : Post :=
  ⟨some "p2496",
   "web3 crypto cloud serverless iot 边缘计算 机器学习 深度学习 subscription 付费 商业化 enterprise b2b 模板 仪表板",
   "", [], 106, 0, Option.none⟩

/-- An idea with an empty direction list, as left behind when the
expand stage was skipped. -/
def noDirIdea : BuildIdea := ⟨"i1", "my idea title", "c", 30, [], [], "analyzed"⟩

/-- A raw post whose `content` key is present but holds an integer. -/
def rawBadContent : RawPost :=
  ⟨Option.none, some (PyVal.str "hello"), some (PyVal.int 42), Option.none,
   Option.none, Option.none, Option.none⟩

/-- The all-absent raw post. -/
def rawEmpty : RawPost :=
  ⟨Option.none, Option.none, Option.none, Option.none, Option.none, Option.none, Option.none⟩

theorem lowerL_append (a b : List Char) : lowerL (a ++ b) = lowerL a ++ lowerL b :=
  List.map_append _ a b

theorem strIn_append_right (kw : String) (s t : List Char) (h : strIn kw s = true) :
    strIn kw (s ++ t) = true := by
  simp only [strIn, decide_eq_true_eq] at h ⊢
  exact h.trans (List.prefix_append s t).isInfix

theorem length_filter_mono {α : Type} (l : List α) (p q : α → Bool)
    (h : ∀ a, p a = true → q a = true) :
    (l.filter p).length ≤ (l.filter q).length := by
  induction l with
  | nil => simp
  | cons a l ih =>
    rw [List.filter_cons, List.filter_cons]
    by_cases hp : p a = true
    · rw [hp, h a hp]
      simpa using ih
    · have hp' : p a = false := by
        cases hpa : p a
        · rfl
        · exact absurd hpa hp
      rw [hp']
      cases hq : q a
      · simpa using ih
      · simp only [if_true, if_false, Bool.false_eq_true, List.length_cons]
        exact le_trans ih (Nat.le_succ _)

theorem countMatches_append (kws : List String) (s t : List Char) :
    countMatches kws s ≤ countMatches kws (s ++ t) :=
  length_filter_mono kws _ _ (fun kw h => strIn_append_right kw s t h)

theorem pyJoinL_append_singleton (sep : List Char) (xs : List (List Char)) (y : List Char) :
    ∃ t, pyJoinL sep (xs ++ [y]) = pyJoinL sep xs ++ t := by
  induction xs with
  | nil => exact ⟨y, rfl⟩
  | cons x xs ih =>
    cases xs with
    | nil => exact ⟨sep ++ y, by simp [pyJoinL]⟩
    | cons x' xs' =>
      obtain ⟨t, ht⟩ := ih
      refine ⟨t, ?_⟩
      show x ++ sep ++ pyJoinL sep ((x' :: xs') ++ [y]) = x ++ sep ++ pyJoinL sep (x' :: xs') ++ t
      rw [ht]
      simp [List.append_assoc]

theorem loweredTags_addTag (p : Post) (k : String) :
    loweredTags (addTag p k) = loweredTags p ++ [lowerL k.toList] := by
  simp [loweredTags, addTag]

theorem combinedText_addTag (p : Post) (k : String) :
    ∃ ext, combinedText (addTag p k) = combinedText p ++ ext := by
  obtain ⟨t, ht⟩ :=
    pyJoinL_append_singleton [' '] (p.tags.map (fun s => lowerL s.toList)) (lowerL k.toList)
  refine ⟨t, ?_⟩
  show lowerL p.title.toList ++ [' '] ++ lowerL p.content.toList ++ [' '] ++
      pyJoinL [' '] ((p.tags ++ [k]).map (fun s => lowerL s.toList)) = _
  rw [List.map_append]
  simp only [List.map_cons, List.map_nil]
  rw [ht]
  simp [combinedText, List.append_assoc]

theorem capped_score_mono (cap : ℚ) (cw tw : Nat) (kws : List String)
    (q : List Char → Bool) (s ext : List Char) (tags : List (List Char)) (tk : List Char) :
    min cap ((cw * countMatches kws (lowerL s) + tw * (tags.filter q).length : ℕ) : ℚ) ≤
    min cap ((cw * countMatches kws (lowerL (s ++ ext)) +
      tw * ((tags ++ [tk]).filter q).length : ℕ) : ℚ) := by
  apply min_le_min (le_refl cap)
  apply Nat.cast_le.mpr
  apply Nat.add_le_add
  · refine Nat.mul_le_mul_left cw ?_
    rw [lowerL_append]
    exact countMatches_append kws (lowerL s) (lowerL ext)
  · refine Nat.mul_le_mul_left tw ?_
    rw [List.filter_append, List.length_append]
    exact Nat.le_add_right _ _

theorem calc_tech_score_addTag (p : Post) (k : String) :
    calc_tech_score (combinedText p) (loweredTags p) ≤
    calc_tech_score (combinedText (addTag p k)) (loweredTags (addTag p k)) := by
  obtain ⟨ext, hext⟩ := combinedText_addTag p k
  rw [hext, loweredTags_addTag]
  exact capped_score_mono 40 5 8 TECH_KEYWORDS _ (combinedText p) ext (loweredTags p)
    (lowerL k.toList)

theorem calc_utility_score_addTag (p : Post) (k : String) :
    calc_utility_score (combinedText p) (loweredTags p) ≤
    calc_utility_score (combinedText (addTag p k)) (loweredTags (addTag p k)) := by
  obtain ⟨ext, hext⟩ := combinedText_addTag p k
  rw [hext, loweredTags_addTag]
  exact capped_score_mono 25 6 5 UTILITY_KEYWORDS _ (combinedText p) ext (loweredTags p)
    (lowerL k.toList)

theorem categoryFold_bounds (cs : List Category) (tl : List Char) (acc : ℚ)
    (h0 : 0 ≤ acc) (h1 : acc ≤ 20) :
    0 ≤ cs.foldl (categoryStep tl) acc ∧ cs.foldl (categoryStep tl) acc ≤ 20 := by
  induction cs generalizing acc with
  | nil => exact ⟨h0, h1⟩
  | cons c rest ih =>
    apply ih
    · unfold categoryStep
      split
      · exact le_trans h0 (le_max_left _ _)
      · exact h0
    · unfold categoryStep
      split
      · exact max_le h1 (min_le_left _ _)
      · exact h1

theorem detectCategoryLoop_eq_find (cs : List Category) (tl : List Char) :
    detectCategoryLoop cs tl =
      ((cs.find? (fun c => 2 ≤ countMatches c.keywords tl)).map
        (fun c => c.description)).getD "通用" := by
  induction cs with
  | nil => rfl
  | cons c rest ih =>
    by_cases h : 2 ≤ countMatches c.keywords tl
    · rw [List.find?_cons_of_pos _ (by simpa using h)]
      simp [detectCategoryLoop, h]
    · rw [List.find?_cons_of_neg _ (by simpa using h)]
      simpa [detectCategoryLoop, h] using ih

theorem mem_insert_idea (s : List IdeaRow) (row r : IdeaRow)
    (h : r ∈ insert_idea s row) : r ∈ s ∨ r = row := by
  unfold insert_idea at h
  split at h
  · exact Or.inl h
  · rcases List.mem_append.mp h with h1 | h2
    · exact Or.inl h1
    · exact Or.inr (List.mem_singleton.mp h2)

theorem mem_foldl_insert (l : List AnalysisResult) (store : List IdeaRow) (r : IdeaRow)
    (h : r ∈ l.foldl (fun s a => insert_idea s (rowOfAnalysis a)) store) :
    r ∈ store ∨ ∃ a ∈ l, r = rowOfAnalysis a := by
  induction l generalizing store with
  | nil => exact Or.inl h
  | cons a l ih =>
    rcases ih (insert_idea store (rowOfAnalysis a)) h with h1 | h2
    · rcases mem_insert_idea store (rowOfAnalysis a) r h1 with h3 | h4
      · exact Or.inl h3
      · exact Or.inr ⟨a, List.mem_cons_self a l, h4⟩
    · obtain ⟨b, hb, he⟩ := h2
      exact Or.inr ⟨b, List.mem_cons_of_mem a hb, he⟩

theorem calc_tech_score_bounds (text : List Char) (tags : List (List Char)) :
    0 ≤ calc_tech_score text tags ∧ calc_tech_score text tags ≤ 40 :=
  ⟨le_min (by norm_num) (Nat.cast_nonneg _), min_le_left _ _⟩

theorem calc_business_score_bounds (text : List Char) :
    0 ≤ calc_business_score text ∧ calc_business_score text ≤ 30 :=
  ⟨le_min (by norm_num) (Nat.cast_nonneg _), min_le_left _ _⟩

theorem calc_utility_score_bounds (text : List Char) (tags : List (List Char)) :
    0 ≤ calc_utility_score text tags ∧ calc_utility_score text tags ≤ 25 :=
  ⟨le_min (by norm_num) (Nat.cast_nonneg _), min_le_left _ _⟩

theorem calc_engagement_score_bounds (upvotes comments : Nat) :
    0 ≤ calc_engagement_score upvotes comments ∧
      calc_engagement_score upvotes comments ≤ 20 := by
  constructor
  · apply add_nonneg
    · exact le_min (by norm_num) (by positivity)
    · exact le_min (by norm_num) (by positivity)
  · have h1 : min (15 : ℚ) ((upvotes : ℚ) * 0.1) ≤ 15 := min_le_left _ _
    have h2 : min (5 : ℚ) ((comments : ℚ) * 0.1) ≤ 5 := min_le_left _ _
    unfold calc_engagement_score
    linarith

theorem calc_category_score_bounds (text : List Char) :
    0 ≤ calc_category_score text ∧ calc_category_score text ≤ 20 :=
  categoryFold_bounds CATEGORIES (lowerL text) 0 (le_refl 0) (by norm_num)

theorem total_score_bounds (p : Post) :
    0 ≤ total_score p ∧ total_score p ≤ 100 := by
  obtain ⟨t0, t1⟩ := calc_tech_score_bounds (combinedText p) (loweredTags p)
  obtain ⟨b0, b1⟩ := calc_business_score_bounds (combinedText p)
  obtain ⟨u0, u1⟩ := calc_utility_score_bounds (combinedText p) (loweredTags p)
  obtain ⟨e0, e1⟩ := calc_engagement_score_bounds p.upvotes p.comment_count
  obtain ⟨c0, c1⟩ := calc_category_score_bounds (combinedText p)
  unfold total_score
  constructor <;> nlinarith

/-- C1: for every post, the raw weighted total score lies in [0, 100],
and each sub-score respects its documented ceiling regardless of how
many keywords match: tech ≤ 40, business ≤ 30, utility ≤ 25,
engagement ≤ 20 (the sum of its two capped parts, 15 and 5),
category bonus ≤ 20. -/
theorem C1_scores_bounded (p : Post) (now : String) :
    (0 ≤ total_score p ∧ total_score p ≤ 100) ∧
    (analyze p now).analysis.tech_score ≤ 40 ∧
    (analyze p now).analysis.business_score ≤ 30 ∧
    (analyze p now).analysis.utility_score ≤ 25 ∧
    (analyze p now).analysis.engagement_score ≤ 20 ∧
    (analyze p now).analysis.category_score ≤ 20 :=
  ⟨total_score_bounds p,
   (calc_tech_score_bounds (combinedText p) (loweredTags p)).2,
   (calc_business_score_bounds (combinedText p)).2,
   (calc_utility_score_bounds (combinedText p) (loweredTags p)).2,
   (calc_engagement_score_bounds p.upvotes p.comment_count).2,
   (calc_category_score_bounds (combinedText p)).2⟩

/-- C8: scoring, categorization and direction planning are
deterministic and free of hidden state: the analysis output is a pure
function of the post, and the wall-clock parameter influences nothing
but the `analyzed_at` timestamp — every other field of `analyze` agrees
across two calls at different times. -/
theorem C8_deterministic (p : Post) (t₁ t₂ : String) :
    (analyze p t₁).id = (analyze p t₂).id ∧
    (analyze p t₁).title = (analyze p t₂).title ∧
    (analyze p t₁).content = (analyze p t₂).content ∧
    (analyze p t₁).tags = (analyze p t₂).tags ∧
    (analyze p t₁).author = (analyze p t₂).author ∧
    (analyze p t₁).upvotes = (analyze p t₂).upvotes ∧
    (analyze p t₁).source = (analyze p t₂).source ∧
    (analyze p t₁).category = (analyze p t₂).category ∧
    (analyze p t₁).creativity_score = (analyze p t₂).creativity_score ∧
    (analyze p t₁).analysis = (analyze p t₂).analysis ∧
    (analyze p t₁).reasons = (analyze p t₂).reasons ∧
    (analyze p t₁).project_directions = (analyze p t₂).project_directions ∧
    (analyze p t₁).tech_stack = (analyze p t₂).tech_stack ∧
    (analyze p t₁).monetization = (analyze p t₂).monetization ∧
    (analyze p t₁).collectible = (analyze p t₂).collectible ∧
    (analyze p t₁).high_quality = (analyze p t₂).high_quality :=
  ⟨rfl, rfl, rfl, rfl, rfl, rfl, rfl, rfl, rfl, rfl, rfl, rfl, rfl, rfl, rfl, rfl⟩

theorem categoryStep_zero (tl : List Char) (acc : ℚ) (c : Category)
    (h : countMatches c.keywords tl = 0) : categoryStep tl acc c = acc := by
  unfold categoryStep
  rw [h]
  simp

theorem categoryStep_pos (tl : List Char) (acc : ℚ) (c : Category)
    (h : 0 < countMatches c.keywords tl) :
    categoryStep tl acc c =
      max acc (min 20 ((countMatches c.keywords tl : ℚ) * 5 * c.weight)) := by
  unfold categoryStep
  rw [if_pos h]

theorem tech_post25 : calc_tech_score (combinedText post25) (loweredTags post25) = 40 := by
  decide

theorem business_post25 : calc_business_score (combinedText post25) = 30 := by
  decide

theorem utility_post25 : calc_utility_score (combinedText post25) (loweredTags post25) = 0 := by
  decide

theorem engagement_post25 : calc_engagement_score post25.upvotes post25.comment_count = 20 := by
  show min (15:ℚ) (((250:ℕ):ℚ) * 0.1) + min (5:ℚ) (((50:ℕ):ℚ) * 0.1) = 20
  rw [min_eq_left (by push_cast; norm_num), min_eq_left (by push_cast; norm_num)]
  norm_num

theorem category_post25 : calc_category_score (combinedText post25) = 15 := by
  have hc : countMatches ["content", "blog", "generator", "writing", "文章"]
      (lowerL (combinedText post25)) = 3 := by decide
  unfold calc_category_score CATEGORIES
  simp only [List.foldl_cons, List.foldl_nil]
  rw [categoryStep_pos _ _ _ (by decide), categoryStep_zero _ _ _ (by decide),
    categoryStep_zero _ _ _ (by decide), categoryStep_zero _ _ _ (by decide),
    categoryStep_zero _ _ _ (by decide)]
  show max 0 (min 20 ((countMatches ["content", "blog", "generator", "writing", "文章"]
    (lowerL (combinedText post25)) : ℚ) * 5 * 1.0)) = 15
  rw [hc]
  rw [min_eq_right (by push_cast; norm_num), max_eq_right (by push_cast; norm_num)]
  push_cast
  norm_num

theorem total_score_post25 : total_score post25 = 25 := by
  unfold total_score
  rw [tech_post25, business_post25, utility_post25, engagement_post25, category_post25]
  norm_num

theorem tech_post249 : calc_tech_score (combinedText post249) (loweredTags post249) = 40 := by
  decide

theorem business_post249 : calc_business_score (combinedText post249) = 30 := by
  decide

theorem utility_post249 : calc_utility_score (combinedText post249) (loweredTags post249) = 12 := by
  decide

theorem engagement_post249 : calc_engagement_score post249.upvotes post249.comment_count = 10 := by
  show min (15:ℚ) (((100:ℕ):ℚ) * 0.1) + min (5:ℚ) (((0:ℕ):ℚ) * 0.1) = 10
  rw [min_eq_right (by push_cast; norm_num), min_eq_right (by push_cast; norm_num)]
  push_cast
  norm_num

theorem category_post249 : calc_category_score (combinedText post249) = 0 := by
  unfold calc_category_score CATEGORIES
  simp only [List.foldl_cons, List.foldl_nil]
  rw [categoryStep_zero _ _ _ (by decide), categoryStep_zero _ _ _ (by decide),
    categoryStep_zero _ _ _ (by decide), categoryStep_zero _ _ _ (by decide),
    categoryStep_zero _ _ _ (by decide)]

theorem total_score_post249 : total_score post249 = 249/10 := by
  unfold total_score
  rw [tech_post249, business_post249, utility_post249, engagement_post249, category_post249]
  norm_num

theorem engagement_post2496 : calc_engagement_score post2496.upvotes post2496.comment_count = 53/5 := by
  show min (15:ℚ) (((106:ℕ):ℚ) * 0.1) + min (5:ℚ) (((0:ℕ):ℚ) * 0.1) = 53/5
  rw [min_eq_right (by push_cast; norm_num), min_eq_right (by push_cast; norm_num)]
  push_cast
  norm_num

theorem total_score_post2496 : total_score post2496 = 624/25 := by
  have ht : calc_tech_score (combinedText post2496) (loweredTags post2496) = 40 := by decide
  have hb : calc_business_score (combinedText post2496) = 30 := by decide
  have hu : calc_utility_score (combinedText post2496) (loweredTags post2496) = 12 := by decide
  have hc : calc_category_score (combinedText post2496) = 0 := by
    unfold calc_category_score CATEGORIES
    simp only [List.foldl_cons, List.foldl_nil]
    rw [categoryStep_zero _ _ _ (by decide), categoryStep_zero _ _ _ (by decide),
      categoryStep_zero _ _ _ (by decide), categoryStep_zero _ _ _ (by decide),
      categoryStep_zero _ _ _ (by decide)]
  unfold total_score
  rw [ht, hb, hu, hc, engagement_post2496]
  norm_num

theorem pyRound1_25 : pyRound1 (25 : ℚ) = 25 := by
  unfold pyRound1 pyRoundHalfEven
  have h : (10:ℚ) * 25 = ((250:ℤ):ℚ) := by norm_num
  rw [h, Int.floor_intCast]
  norm_num

theorem pyRound1_2496 : pyRound1 (624/25 : ℚ) = 25 := by
  unfold pyRound1 pyRoundHalfEven
  have h : ⌊(10:ℚ) * (624/25)⌋ = 249 := by
    rw [Int.floor_eq_iff]
    norm_num
  rw [h]
  norm_num

theorem creativity_post25 : (analyze post25 "t").creativity_score = 25 := by
  show min (100:ℚ) (pyRound1 (total_score post25)) = 25
  rw [total_score_post25, pyRound1_25]
  norm_num

theorem creativity_post2496 : (analyze post2496 "t").creativity_score = 25 := by
  show min (100:ℚ) (pyRound1 (total_score post2496)) = 25
  rw [total_score_post2496, pyRound1_2496]
  norm_num

/-- C10: the collectible and high-quality flags are computed from the
raw weighted total (≥ 25 resp. ≥ 50) before the reported
creativity score is formed by one-decimal rounding and clamping at 100;
consequently the flags are not a function of the reported
creativity score: two concrete posts share the reported score 25.0 yet
differ in collectibility. -/
theorem C10_flags_from_raw_total :
    (∀ (p : Post) (now : String),
      (analyze p now).collectible = decide (25 ≤ total_score p) ∧
      (analyze p now).high_quality = decide (50 ≤ total_score p) ∧
      (analyze p now).creativity_score = min 100 (pyRound1 (total_score p))) ∧
    (analyze post2496 "t").creativity_score = (analyze post25 "t").creativity_score ∧
    (analyze post2496 "t").collectible = false ∧
    (analyze post25 "t").collectible = true := by
  refine ⟨fun p now => ⟨rfl, rfl, rfl⟩, ?_, ?_, ?_⟩
  · rw [creativity_post2496, creativity_post25]
  · show decide (25 ≤ total_score post2496) = false
    rw [total_score_post2496]
    norm_num
  · show decide (25 ≤ total_score post25) = true
    rw [total_score_post25]
    norm_num

/-- C4 (amended): the categorizer returns the display label of the
first category, in declared order, whose keyword-list entries counted
with multiplicity reach two matches in the normalized text (the
`platform` list contains `"platform"` twice, so that single distinct
keyword suffices there); if none qualifies it returns `通用`. -/
theorem C4_first_category_with_multiplicity (text : List Char) :
    detect_category text = detect_category_amended text :=
  detectCategoryLoop_eq_find CATEGORIES (lowerL text)

/-- C4 counterexample: the text `platform` contains at most one distinct
keyword of every category, yet the categorizer labels it `平台产品`
rather than the generic `通用` that the spec's two-distinct-keywords
rule prescribes (the duplicated `"platform"` entry is counted twice). -/
theorem C4_counterexample :
    (analyze platformPost "t").category = "平台产品" ∧
    detect_category_spec (combinedText platformPost) = "通用" ∧
    ∀ c ∈ CATEGORIES,
      (c.keywords.dedup.filter
        (fun kw => strIn kw (lowerL (combinedText platformPost)))).length ≤ 1 := by
  refine ⟨?_, ?_, ?_⟩
  · decide
  · decide
  · decide

/-- C2 counterexample: an idea whose direction list is empty builds
successfully (falling back to the generic `tool_website` template and
writing its five files) instead of failing with a NotFound-style
error. -/
theorem C2_counterexample :
    noDirIdea.project_directions = [] ∧
    (api_build [noDirIdea] "i1" 0 "pid0").map
      (fun r => (r.success, r.project_type, r.files_created)) =
      Except.ok (true, "tool_website", 5) :=
  ⟨rfl, rfl⟩

/-- C2 (amended): only a missing idea id makes `/api/build` fail, with
the NotFound-style error `创意不存在` and no artifact; building an
existing idea whose direction list is empty (or whose direction index is
out of range) succeeds, silently falling back to the generic
`tool_website` template. -/
theorem C2_build_fallback :
    (∀ (ideas : List BuildIdea) (iid : String) (idx : Nat) (pid : String),
      ideas.find? (fun i => i.id == iid) = Option.none →
      api_build ideas iid idx pid = Except.error "创意不存在") ∧
    (∀ (idea : BuildIdea) (idx : Nat) (pid : String),
      idea.project_directions = [] →
      api_build [idea] idea.id idx pid = Except.ok (build idea Option.none pid) ∧
      (build idea Option.none pid).success = true ∧
      (build idea Option.none pid).project_type = "tool_website") := by
  constructor
  · intro ideas iid idx pid h
    unfold api_build
    rw [h]
  · intro idea idx pid h
    refine ⟨?_, rfl, rfl⟩
    unfold api_build
    rw [List.find?_cons_of_pos _ (by simp)]
    show Except.ok (build idea idea.project_directions[idx]? pid) = _
    rw [h]
    simp

theorem C2_build_fallback_witness :
    api_build [] "missing" 0 "pid1" = Except.error "创意不存在" ∧
    api_build [noDirIdea] noDirIdea.id 3 "pid2" = Except.ok (build noDirIdea Option.none "pid2") ∧
    (build noDirIdea Option.none "pid2").success = true ∧
    (build noDirIdea Option.none "pid2").project_type = "tool_website" :=
  ⟨C2_build_fallback.1 [] "missing" 0 "pid1" rfl,
   C2_build_fallback.2 noDirIdea 3 "pid2" rfl⟩

/-- C3: in the two sub-scores that distinguish tag matches from
free-text matches, a keyword supplied as a tag contributes strictly more
than the same keyword appearing only in the free text: the tag also
occurs in the combined text (earning the text weight) and additionally
earns the tag weight (8 over 5 for tech, 5 over 6 for utility). -/
theorem C3_tags_beat_text :
    (∀ k ∈ TECH_KEYWORDS,
      (analyze (titlePost k) "t").analysis.tech_score <
      (analyze (tagPost k) "t").analysis.tech_score) ∧
    (∀ k ∈ UTILITY_KEYWORDS,
      (analyze (titlePost k) "t").analysis.utility_score <
      (analyze (tagPost k) "t").analysis.utility_score) := by
  constructor
  · decide
  · decide

theorem C3_tags_beat_text_witness :
    (analyze (titlePost "ai") "t").analysis.tech_score <
      (analyze (tagPost "ai") "t").analysis.tech_score ∧
    (analyze (titlePost "tool") "t").analysis.utility_score <
      (analyze (tagPost "tool") "t").analysis.utility_score :=
  ⟨C3_tags_beat_text.1 "ai" (by decide), C3_tags_beat_text.2 "tool" (by decide)⟩

theorem insert_idea_duplicate (s : List IdeaRow) (row : IdeaRow)
    (h : ∃ r ∈ s, r.id = row.id) : insert_idea s row = s := by
  obtain ⟨r, hr, hid⟩ := h
  unfold insert_idea
  rw [if_pos]
  exact List.any_eq_true.mpr ⟨r, hr, by simp [hid]⟩

theorem insert_idea_idem (s : List IdeaRow) (row : IdeaRow) :
    insert_idea (insert_idea s row) row = insert_idea s row := by
  by_cases h : s.any (fun r => r.id == row.id) = true
  · have hs : insert_idea s row = s := by
      unfold insert_idea
      rw [if_pos h]
    rw [hs, hs]
  · have hs : insert_idea s row = s ++ [row] := by
      unfold insert_idea
      rw [if_neg h]
    rw [hs]
    unfold insert_idea
    rw [if_pos (by simp [List.any_append])]

theorem ingest_twice_unique (row : IdeaRow) :
    ((insert_idea (insert_idea [] row) row).filter (fun r => r.id == row.id)).length = 1 := by
  simp [insert_idea]

/-- C7: ingestion is idempotent.  Inserting an idea whose id already
exists in the store is a silent no-op that leaves the stored rows
unchanged (no error is surfaced), ingesting the analysis of the same
post twice equals ingesting it once, and doing so from an empty store
leaves exactly one record under that fingerprint. -/
theorem C7_idempotent_ingestion :
    (∀ (s : List IdeaRow) (row : IdeaRow), (∃ r ∈ s, r.id = row.id) →
      insert_idea s row = s) ∧
    (∀ (s : List IdeaRow) (p : Post) (now : String),
      insert_idea (insert_idea s (rowOfAnalysis (analyze p now)))
        (rowOfAnalysis (analyze p now)) =
      insert_idea s (rowOfAnalysis (analyze p now))) ∧
    (∀ (p : Post) (now : String),
      ((insert_idea (insert_idea [] (rowOfAnalysis (analyze p now)))
          (rowOfAnalysis (analyze p now))).filter
        (fun r => r.id == (rowOfAnalysis (analyze p now)).id)).length = 1) :=
  ⟨insert_idea_duplicate,
   fun s p now => insert_idea_idem s (rowOfAnalysis (analyze p now)),
   fun p now => ingest_twice_unique (rowOfAnalysis (analyze p now))⟩

/-- A concrete stored row used to witness the duplicate no-op. -/
def rowA : IdeaRow :=
  ⟨"idA", "moltbook", Option.none, "T", "C", "", "通用", 0, Option.none, 10, "", "new",
   Option.none⟩

theorem C7_idempotent_ingestion_witness :
    insert_idea [rowA] rowA = [rowA] :=
  C7_idempotent_ingestion.1 [rowA] rowA ⟨rowA, by simp, rfl⟩

/-- C9: adding an additional tag drawn from the tracked tech or utility
keyword sets never decreases the tech or utility sub-score: the tag
extends the combined text (so no text match is lost) and can only add
tag-loop bonuses; both caps are monotone. -/
theorem C9_tag_monotonicity (p : Post) (k : String)
    (hk : k ∈ TECH_KEYWORDS ∨ k ∈ UTILITY_KEYWORDS) (now : String) :
    (analyze p now).analysis.tech_score ≤ (analyze (addTag p k) now).analysis.tech_score ∧
    (analyze p now).analysis.utility_score ≤
      (analyze (addTag p k) now).analysis.utility_score :=
  ⟨calc_tech_score_addTag p k, calc_utility_score_addTag p k⟩

theorem C9_tag_monotonicity_witness :
    (analyze emptyPost "t").analysis.tech_score ≤
      (analyze (addTag emptyPost "ai") "t").analysis.tech_score ∧
    (analyze emptyPost "t").analysis.utility_score ≤
      (analyze (addTag emptyPost "ai") "t").analysis.utility_score :=
  C9_tag_monotonicity emptyPost "ai" (Or.inl (by decide)) "t"

/-- C6: collectibility threshold and retention.  A post whose raw
weighted total is exactly 25 is collectible and one at 24.9 is not; the
batch analysis and the monitoring cycle retain only collectible
analyses; and every row the monitoring cycle persists beyond the
pre-existing store is the row of a retained, collectible analysis. -/
theorem C6_collectibility_threshold :
    (∀ (p : Post) (now : String), total_score p = 25 → (analyze p now).collectible = true) ∧
    (∀ (p : Post) (now : String), total_score p = 249/10 →
      (analyze p now).collectible = false) ∧
    (∀ (posts : List Post) (now : String) (a : AnalysisResult),
      a ∈ batch_analyze posts now → a.collectible = true) ∧
    (∀ (posts : List Post) (now : String) (a : AnalysisResult),
      a ∈ monitoring_retained posts now → a.collectible = true) ∧
    (∀ (store : List IdeaRow) (posts : List Post) (now : String) (r : IdeaRow),
      r ∈ run_monitoring_persist store posts now →
      r ∈ store ∨ ∃ a, a ∈ monitoring_retained posts now ∧ a.collectible = true ∧
        r = rowOfAnalysis a) := by
  refine ⟨?_, ?_, ?_, ?_, ?_⟩
  · intro p now h
    show decide (25 ≤ total_score p) = true
    rw [h]
    simp only [decide_eq_true_eq]
    norm_num
  · intro p now h
    show decide (25 ≤ total_score p) = false
    rw [h]
    simp only [decide_eq_false_iff_not]
    norm_num
  · intro posts now a ha
    unfold batch_analyze at ha
    exact (List.mem_filter.mp (List.mem_mergeSort.mp ha)).2
  · intro posts now a ha
    unfold monitoring_retained at ha
    exact (List.mem_filter.mp (List.mem_mergeSort.mp ha)).2
  · intro store posts now r h
    unfold run_monitoring_persist at h
    rcases mem_foldl_insert _ _ _ h with h1 | ⟨a, ha, he⟩
    · exact Or.inl h1
    · refine Or.inr ⟨a, ha, ?_, he⟩
      unfold monitoring_retained at ha
      exact (List.mem_filter.mp (List.mem_mergeSort.mp ha)).2

theorem C6_collectibility_threshold_witness :
    (analyze post25 "t").collectible = true ∧
    (analyze post249 "t").collectible = false ∧
    (analyze post25 "t").collectible = true ∧
    (analyze post25 "t").collectible = true ∧
    (rowOfAnalysis (analyze post25 "t") ∈ ([] : List IdeaRow) ∨
      ∃ a, a ∈ monitoring_retained [post25] "t" ∧ a.collectible = true ∧
        rowOfAnalysis (analyze post25 "t") = rowOfAnalysis a) := by
  have hcol : (analyze post25 "t").collectible = true :=
    C6_collectibility_threshold.1 post25 "t" total_score_post25
  have hfil : ([post25].map (fun p => analyze p "t")).filter (fun a => a.collectible) =
      [analyze post25 "t"] := by
    simp [hcol]
  have hret : monitoring_retained [post25] "t" = [analyze post25 "t"] := by
    unfold monitoring_retained
    rw [hfil, List.mergeSort_singleton]
  have hbat : analyze post25 "t" ∈ batch_analyze [post25] "t" := by
    unfold batch_analyze
    rw [hfil, List.mergeSort_singleton]
    exact List.mem_singleton_self _
  have hmem : analyze post25 "t" ∈ monitoring_retained [post25] "t" := by
    rw [hret]
    exact List.mem_singleton_self _
  have hpersist : rowOfAnalysis (analyze post25 "t") ∈
      run_monitoring_persist [] [post25] "t" := by
    unfold run_monitoring_persist
    rw [hret]
    show rowOfAnalysis (analyze post25 "t") ∈
      insert_idea [] (rowOfAnalysis (analyze post25 "t"))
    simp [insert_idea]
  exact ⟨hcol,
    C6_collectibility_threshold.2.1 post249 "t" total_score_post249,
    C6_collectibility_threshold.2.2.1 [post25] "t" _ hbat,
    C6_collectibility_threshold.2.2.2.1 [post25] "t" _ hmem,
    C6_collectibility_threshold.2.2.2.2 [] [post25] "t" _ hpersist⟩

theorem mapTagElems_strs (xs : List String) :
    mapTagElems (xs.map PyVal.str) = Except.ok xs := by
  induction xs with
  | nil => rfl
  | cons x xs ih =>
    show (mapTagElems (xs.map PyVal.str)).map (fun rest => x :: rest) = _
    rw [ih]
    rfl

theorem getTagsField_strs (xs : List String) :
    getTagsField (some (PyVal.list (xs.map PyVal.str))) = Except.ok xs :=
  mapTagElems_strs xs

theorem extractPost_ok (raw : RawPost) (now : String) (t c : String) (tg : List String)
    (u cc : Nat) (h1 : getStrField raw.title = Except.ok t)
    (h2 : getStrField raw.content = Except.ok c)
    (h3 : getTagsField raw.tags = Except.ok tg)
    (h4 : getCountField raw.upvotes = Except.ok u)
    (h5 : getCountField raw.comment_count = Except.ok cc) :
    analyzeDyn raw now = Except.ok (analyze ⟨raw.id, t, c, tg, u, cc, raw.author⟩ now) := by
  unfold analyzeDyn extractPost
  rw [h1, h2, h3, h4, h5]
  rfl

/-- C5 counterexample: a post whose `content` key is present but holds a
non-string value takes the error path (`AttributeError` from
`.lower()`); analysis is not total, and a present non-string content is
not treated as the empty string. -/
theorem C5_counterexample :
    analyzeDyn rawBadContent "t" = Except.error "AttributeError" := rfl

/-- C5 (amended): analysis is total over raw posts whose present fields
are well-shaped, with absent fields defaulted (absent title/content to
the empty string, absent tags to the empty list, absent counts to 0, so
the all-absent post analyzes as the empty post); but a present
non-string title or content, a tag list with a non-string element, or a
non-numeric count raises instead of being treated as empty. -/
theorem C5_defaulting_totality :
    (∀ (raw : RawPost) (now : String), WellTypedRaw raw →
      ∃ r, analyzeDyn raw now = Except.ok r) ∧
    (∀ now : String, analyzeDyn rawEmpty now =
      Except.ok (analyze ⟨Option.none, "", "", [], 0, 0, Option.none⟩ now)) := by
  constructor
  · intro raw now h
    obtain ⟨pid, title, content, tags, up, cc, au⟩ := raw
    obtain ⟨ht, hc, htg, hu, hcc⟩ := h
    dsimp only at ht hc htg hu hcc
    rcases ht with rfl | ⟨s1, rfl⟩ <;>
      rcases hc with rfl | ⟨s2, rfl⟩ <;>
        rcases htg with rfl | ⟨s3, rfl⟩ | ⟨xs, rfl⟩ <;>
          rcases hu with rfl | ⟨n1, rfl⟩ <;>
            rcases hcc with rfl | ⟨n2, rfl⟩ <;>
    first
      | exact ⟨_, rfl⟩
      | exact ⟨_, extractPost_ok _ now _ _ _ _ _ rfl rfl (getTagsField_strs _) rfl rfl⟩
  · intro now
    rfl

/-- A fully present, well-shaped raw post. -/
def rawGood : RawPost :=
  ⟨some "id1", some (PyVal.str "Tool"), some (PyVal.str "ai tool"),
   some (PyVal.list [PyVal.str "ai"]), some (PyVal.int 3), Option.none, Option.none⟩

theorem C5_defaulting_totality_witness :
    ∃ r, analyzeDyn rawGood "t" = Except.ok r :=
  C5_defaulting_totality.1 rawGood "t"
    ⟨Or.inr ⟨"Tool", rfl⟩, Or.inr ⟨"ai tool", rfl⟩,
     Or.inr (Or.inr ⟨["ai"], rfl⟩), Or.inr ⟨3, rfl⟩, Or.inl rfl⟩
